import Mathlib

/-!
Shallow embedding of the UniversalAIChat conversational routing engine:
keyword-based intent classification, support-ticket classification, the
context-switch analyzer, the multi-agent conversation state machine (the
`multi-agent-chat` edge function and the client hook variant), and the
feedback-driven prompt-improvement engine.

Conventions used throughout:
* Confidence values and scores that the source stores as decimal fractions
  in [0,1] are represented in hundredths (`0.85` ↦ `85 : Nat`); every
  comparison in the source is against such a constant, so the scaling is
  exact.  Ratio comparisons (`a / n > 0.3`, `avg < 0.7`) are cross-multiplied
  to exact integer comparisons.
* JavaScript `message.toLowerCase()` is modelled by `lower`, which lowers
  the ASCII and Cyrillic ranges actually occurring in the keyword tables.
* `msg.includes(kw)` (substring containment) is modelled by `hasSub` over
  the character lists.
* Database rows live in explicit state records; collaborator lookups
  (agent tables, document/history queries) are passed in as parameters.
* Wall-clock timestamps that are stored but never read by any decision
  logic are omitted from the message records.
-/

namespace UniChat

/-- JS-style `toLowerCase` on one character, for the Latin and Cyrillic
alphabets used by the keyword lists (`A`–`Z`, `А`–`Я` U+0410–U+042F, `Ё`). -/
def lowerChar (c : Char) : Char :=
  if 'A' ≤ c ∧ c ≤ 'Z' then Char.ofNat (c.toNat + 32)
  else if 0x410 ≤ c.toNat ∧ c.toNat ≤ 0x42F then Char.ofNat (c.toNat + 0x20)
  else if c.toNat = 0x401 then Char.ofNat 0x451
  else c

/-- `message.toLowerCase()` as a character list. -/
def lower (s : String) : List Char := s.toList.map lowerChar

/-- `kw` is a leading segment of `msg`. -/
def headSeg : List Char → List Char → Bool
  | _, [] => true
  | [], _ :: _ => false
  | c :: cs, k :: ks => c == k && headSeg cs ks

/-- JS `msg.includes(kw)`: `kw` occurs contiguously inside `msg`. -/
def hasSub : List Char → List Char → Bool
  | [], kw => kw.isEmpty
  | c :: rest, kw => headSeg (c :: rest) kw || hasSub rest kw

/-- `patterns.some(p => lowerMessage.includes(p))`. -/
def anyKw (kws : List String) (msg : List Char) : Bool :=
  kws.any (fun k => hasSub msg k.toList)

/-! ## IntentClassifier (`useAdvancedIntentClassification.classifyIntent`) -/

inductive Priority | low | medium | high | urgent
deriving DecidableEq, Repr

def priorityStr : Priority → String
  | .low => "low"
  | .medium => "medium"
  | .high => "high"
  | .urgent => "urgent"

structure IntentResult where
  intent : String
  confidence : Nat
  suggestedAgentId : Option String
  priority : Priority
  requiresEscalation : Bool
  autoResponse : Option String
  reasoning : String
deriving DecidableEq, Repr

def urgentPatterns : List String :=
  ["критическая ошибка", "сайт не работает", "система упала", "critical error",
   "site down", "system crash", "urgent", "срочно", "emergency"]

def technicalPatternsHigh : List String :=
  ["не работает", "система упала", "ошибка 500", "база данных",
   "not working", "system down", "500 error", "database error"]

def technicalPatternsMedium : List String :=
  ["проблема с загрузкой", "медленно работает", "timeout",
   "loading issues", "slow performance", "connection timeout"]

def technicalPatternsLow : List String :=
  ["как настроить", "how to configure", "вопрос по функции",
   "question about feature", "help with setup"]

def documentPatterns : List String :=
  ["документ", "файл", "pdf", "загрузить", "поиск по документу",
   "document", "file", "search", "upload", "найти в документе",
   "в документации", "in documentation"]

def researchPatterns : List String :=
  ["исследование", "анализ", "изучить", "найти информацию", "сравнить",
   "research", "analysis", "study", "compare", "analyze", "investigate"]

def featurePatterns : List String :=
  ["добавить функцию", "новая возможность", "feature request",
   "add feature", "enhancement", "improvement", "предложение"]

def bugPatterns : List String :=
  ["баг", "ошибка в коде", "неправильно работает", "bug",
   "code error", "incorrect behavior", "broken feature"]

def intentReasoning (intent : String) (p : Priority) : String :=
  "Detected " ++ intent ++ " intent with " ++ priorityStr p ++
    " priority based on pattern analysis"

/-- `classifyIntent` from `useAdvancedIntentClassification`.  The
`getAgentsByRole('support')` / `getAgentsByRole('researcher')` collaborator
results are passed in as the id lists `supportAgents` / `researchers`
(`agents[0]?.id` ↦ `.head?`). -/
def classifyIntent (supportAgents researchers : List String) (message : String) :
    IntentResult :=
  let lm := lower message
  if anyKw urgentPatterns lm then
    { intent := "urgent_support", confidence := 95,
      suggestedAgentId := supportAgents.head?, priority := .urgent,
      requiresEscalation := true,
      autoResponse := some "Обнаружена критическая проблема. Перенаправляю к агенту поддержки с высоким приоритетом.",
      reasoning := intentReasoning "urgent_support" .urgent }
  else if anyKw (technicalPatternsHigh ++ technicalPatternsMedium ++ technicalPatternsLow) lm then
    if anyKw technicalPatternsHigh lm then
      { intent := "technical_support", confidence := 90,
        suggestedAgentId := supportAgents.head?, priority := .high,
        requiresEscalation := false, autoResponse := none,
        reasoning := intentReasoning "technical_support" .high }
    else if anyKw technicalPatternsMedium lm then
      { intent := "technical_support", confidence := 80,
        suggestedAgentId := supportAgents.head?, priority := .medium,
        requiresEscalation := false, autoResponse := none,
        reasoning := intentReasoning "technical_support" .medium }
    else
      { intent := "technical_support", confidence := 70,
        suggestedAgentId := supportAgents.head?, priority := .low,
        requiresEscalation := false, autoResponse := none,
        reasoning := intentReasoning "technical_support" .low }
  else if anyKw documentPatterns lm then
    { intent := "document_question", confidence := 85,
      suggestedAgentId := researchers.head?, priority := .low,
      requiresEscalation := false, autoResponse := none,
      reasoning := intentReasoning "document_question" .low }
  else if anyKw researchPatterns lm then
    { intent := "research_request", confidence := 80,
      suggestedAgentId := researchers.head?, priority := .medium,
      requiresEscalation := false, autoResponse := none,
      reasoning := intentReasoning "research_request" .medium }
  else if anyKw featurePatterns lm then
    { intent := "feature_request", confidence := 75,
      suggestedAgentId := none, priority := .low,
      requiresEscalation := false,
      autoResponse := some "Спасибо за предложение! Ваш запрос на новую функцию передан команде разработки для рассмотрения.",
      reasoning := intentReasoning "feature_request" .low }
  else if anyKw bugPatterns lm then
    { intent := "bug_report", confidence := 80,
      suggestedAgentId := supportAgents.head?, priority := .medium,
      requiresEscalation := false,
      autoResponse := some "Обнаружен отчет об ошибке. Собираю дополнительную информацию для диагностики.",
      reasoning := intentReasoning "bug_report" .medium }
  else
    { intent := "general", confidence := 50,
      suggestedAgentId := none, priority := .medium,
      requiresEscalation := false, autoResponse := none,
      reasoning := intentReasoning "general" .medium }

/-! ## SupportRoutingEngine (`classifySupportTicket`) -/

inductive TicketCategory | technical | billing | general | feature_request | bug_report
deriving DecidableEq, Repr

inductive Complexity | simple | moderate | complex
deriving DecidableEq, Repr

structure SupportTicketClassification where
  category : TicketCategory
  priority : Priority
  complexity : Complexity
  estimatedResolutionTime : Nat
  requiresHumanEscalation : Bool
deriving DecidableEq, Repr

def ticketTechnicalWords : List String := ["ошибка", "не работает", "error", "broken", "crash"]

/-- Note: `'API'` is kept verbatim from the source; since the message is
lowercased before matching, it can never match. -/
def ticketComplexWords : List String := ["база данных", "database", "API", "интеграция", "integration"]

def ticketModerateWords : List String := ["загрузка", "performance", "медленно", "timeout"]

def ticketBugWords : List String := ["баг", "bug", "неправильно", "incorrect"]

def ticketFeatureWords : List String := ["функция", "feature", "добавить", "add", "enhancement"]

def ticketBillingWords : List String := ["оплата", "billing", "payment", "счет", "subscription"]

def ticketCriticalWords : List String := ["critical", "критический", "urgent", "срочно"]

/-- `classifySupportTicket` from `useAdvancedIntentClassification`:
ordered rule cascade followed by the final escalation override. -/
def classifySupportTicket (message : String) : SupportTicketClassification :=
  let lm := lower message
  let base : SupportTicketClassification :=
    if anyKw ticketTechnicalWords lm then
      if anyKw ticketComplexWords lm then
        { category := .technical, priority := .high, complexity := .complex,
          estimatedResolutionTime := 120, requiresHumanEscalation := true }
      else if anyKw ticketModerateWords lm then
        { category := .technical, priority := .medium, complexity := .moderate,
          estimatedResolutionTime := 60, requiresHumanEscalation := false }
      else
        { category := .technical, priority := .low, complexity := .simple,
          estimatedResolutionTime := 15, requiresHumanEscalation := false }
    else if anyKw ticketBugWords lm then
      { category := .bug_report, priority := .medium, complexity := .moderate,
        estimatedResolutionTime := 45, requiresHumanEscalation := false }
    else if anyKw ticketFeatureWords lm then
      { category := .feature_request, priority := .low, complexity := .simple,
        estimatedResolutionTime := 5, requiresHumanEscalation := false }
    else if anyKw ticketBillingWords lm then
      { category := .billing, priority := .medium, complexity := .simple,
        estimatedResolutionTime := 20, requiresHumanEscalation := false }
    else
      { category := .general, priority := .medium, complexity := .moderate,
        estimatedResolutionTime := 30, requiresHumanEscalation := false }
  if base.priority = .high ∨ anyKw ticketCriticalWords lm then
    { base with priority := .urgent, requiresHumanEscalation := true }
  else
    base

/-! ## ContextAnalyzer (`useContextSwitching`, part of the hooks source) -/

inductive Ctx | rag | history | agent | general
deriving DecidableEq, Repr

structure ConversationContext where
  chatId : String
  currentContext : Ctx
  activeDocuments : List String
  relevantHistory : List String
  contextScore : Nat
  /-- `lastSwitchTime`, in milliseconds since the epoch. -/
  lastSwitchTime : Nat
deriving DecidableEq, Repr

structure ContextSwitchResult where
  shouldSwitch : Bool
  newContext : Ctx
  confidence : Nat
  reasoning : String
  suggestedDocuments : List String
  relevantHistory : List String
  suggestedAgent : Option String
deriving DecidableEq, Repr

def documentKeywords : List String :=
  ["в документе", "по документу", "документация", "pdf", "файл",
   "in document", "documentation", "file", "according to",
   "найти в", "поиск по", "что говорится в", "на основе документа"]

def historyKeywords : List String :=
  ["раньше говорили", "ранее обсуждали", "в прошлой беседе", "помните",
   "previously discussed", "earlier conversation", "we talked about",
   "you mentioned", "как вы сказали", "продолжим тему"]

def agentTaskKeywords : List String :=
  ["специалист по", "эксперт в", "кто может помочь с",
   "specialist in", "expert in", "who can help with",
   "нужен совет по", "консультация по"]

/-- Note: `'API'` is kept verbatim from the source; the lowercased message
can never contain it. -/
def technicalKeywords : List String :=
  ["код", "программирование", "ошибка", "баг", "API",
   "code", "programming", "error", "bug", "development",
   "функция", "алгоритм", "база данных"]

/-- Document keywords of the rag-effectiveness check (a different, shorter
list than `documentKeywords`). -/
def ragDocKeywords : List String := ["документ", "файл", "pdf", "document", "file"]

/-- History keywords of the history-effectiveness check. -/
def histCheckKeywords : List String := ["раньше", "ранее", "помните", "previously", "earlier"]

structure EffectivenessResult where
  score : Nat
  suggestedContext : Ctx
  confidence : Nat
  reason : String
deriving DecidableEq, Repr

/-- `analyzeCurrentContextEffectiveness`.  `now` is `Date.now()` in ms;
`minutesSinceSwitch < 5` is `now - lastSwitchTime < 300000 ms` (with the
truncated `Nat` subtraction agreeing with the JS comparison whenever the
switch is in the past, and both sides classifying a future timestamp as
recent). -/
def analyzeCurrentContextEffectiveness (context : ConversationContext)
    (newMessage : String) (now : Nat) : EffectivenessResult :=
  let score0 : Nat := 70
  let score1 := if now - context.lastSwitchTime < 300000 then score0 + 20 else score0
  let lm := lower newMessage
  if context.currentContext = .rag then
    if ¬ (anyKw ragDocKeywords lm = true) ∧ context.activeDocuments.isEmpty then
      { score := 40, suggestedContext := .general, confidence := 70,
        reason := "Message no longer seems document-related and no active documents" }
    else
      { score := score1, suggestedContext := context.currentContext,
        confidence := 50, reason := "Current context seems appropriate" }
  else if context.currentContext = .history then
    if ¬ (anyKw histCheckKeywords lm = true) then
      { score := 50, suggestedContext := .general, confidence := 60,
        reason := "Message no longer references conversation history" }
    else
      { score := score1, suggestedContext := context.currentContext,
        confidence := 50, reason := "Current context seems appropriate" }
  else
    { score := score1, suggestedContext := context.currentContext,
      confidence := 50, reason := "Current context seems appropriate" }

/-- `analyzeContextSwitch`.  The collaborator results are passed in:
`supportAgents` / `researchers` feed the embedded `classifyIntent` call of
the agent branch, `docs` is what `findRelevantDocuments` would return and
`hist` what `getRelevantHistory` would return (each is consulted only in
its own branch). -/
def analyzeContextSwitch (supportAgents researchers docs hist : List String)
    (now : Nat) (message : String)
    (currentChatContext : Option ConversationContext) : ContextSwitchResult :=
  let lm := lower message
  let base : ContextSwitchResult :=
    { shouldSwitch := false, newContext := .general, confidence := 50,
      reasoning := "", suggestedDocuments := [], relevantHistory := [],
      suggestedAgent := none }
  let r :=
    if anyKw documentKeywords lm then
      { base with
          shouldSwitch := true, newContext := .rag, confidence := 85
          reasoning := "User is referencing documents or asking for document-based information"
          suggestedDocuments := docs }
    else if anyKw historyKeywords lm then
      { base with
          shouldSwitch := true, newContext := .history, confidence := 80
          reasoning := "User is referencing previous conversation or asking for historical context"
          relevantHistory := hist }
    else if anyKw agentTaskKeywords lm ∨ anyKw technicalKeywords lm then
      let intentResult := classifyIntent supportAgents researchers message
      match intentResult.suggestedAgentId with
      | some aid =>
          { base with
              shouldSwitch := true, newContext := .agent
              confidence := intentResult.confidence
              reasoning := "User task requires specialized agent: " ++ intentResult.intent
              suggestedAgent := some aid }
      | none => base
    else base
  match currentChatContext with
  | some ctx =>
      if r.shouldSwitch = false then
        let eff := analyzeCurrentContextEffectiveness ctx message now
        if eff.score < 60 then
          { r with
              shouldSwitch := true, newContext := eff.suggestedContext
              confidence := eff.confidence, reasoning := eff.reason }
        else r
      else r
  | none => r

/-! ## MultiAgentConversationEngine (the `multi-agent-chat` edge function) -/

structure Agent where
  id : String
  name : String
  system_prompt : String
  role : String
deriving DecidableEq, Repr

inductive CStatus | idle | active | completed | error
deriving DecidableEq, Repr

structure TurnMessage where
  agentId : String
  agentName : String
  content : String
deriving DecidableEq, Repr

structure ConvState where
  currentTurn : Nat
  maxTurns : Nat
  agents : List String
  topic : String
  status : CStatus
  messages : List TurnMessage
deriving DecidableEq, Repr

structure ChatMessage where
  sender : String
  content : String
  role : String
  agent_id : Option String
  intent : String
deriving DecidableEq, Repr

/-- The mutable rows the engine reads and writes: the single
`agent_conversations` row (none before `start` creates it) and the chat's
`messages` table in insertion order (oldest first). -/
structure World where
  conversation : Option ConvState
  chatMessages : List ChatMessage
deriving DecidableEq, Repr

def emptyWorld : World := { conversation := none, chatMessages := [] }

inductive EngineError | invalidInput | fetchFailed | notFound | notActive
deriving DecidableEq, Repr

instance {ε α : Type} [DecidableEq ε] [DecidableEq α] : DecidableEq (Except ε α) :=
  fun a b =>
    match a, b with
    | .error e, .error f =>
      if h : e = f then .isTrue (by subst h; rfl)
      else .isFalse (fun hc => by injection hc with h2; exact h h2)
    | .ok x, .ok y =>
      if h : x = y then .isTrue (by subst h; rfl)
      else .isFalse (fun hc => by injection hc with h2; exact h h2)
    | .error _, .ok _ => .isFalse (fun hc => by injection hc)
    | .ok _, .error _ => .isFalse (fun hc => by injection hc)

/-- `context.slice(-3)`: the last `n` elements of a JS array. -/
def lastN (n : Nat) (l : List α) : List α := l.drop (l.length - n)

/-- `generateAgentMessage(agent, topic, context, turn)`: the deterministic
role-template response.  `context` is the list of `m.content` strings of the
context messages, in the order the source passes them. -/
def generateAgentMessage (agent : Agent) (topic : String) (context : List String)
    (turn : Nat) : String :=
  let contextSummary :=
    if context.length > 0 then
      "Контекст: " ++ String.intercalate " | " (lastN 3 context)
    else ""
  let response :=
    if agent.role = "researcher" then
      "Как исследователь, я анализирую тему \"" ++ topic ++ "\". " ++
        (if contextSummary = "" then "" else "Учитывая предыдущий контекст: " ++ contextSummary) ++
        " Позвольте мне предложить углубленный анализ и дополнительные источники информации."
    else if agent.role = "support" then
      "Как агент поддержки, я готов помочь с темой \"" ++ topic ++ "\". " ++
        (if contextSummary = "" then "" else "Основываясь на предыдущем обсуждении: " ++ contextSummary) ++
        " Что именно вас интересует или беспокоит?"
    else if agent.role = "coder" then
      "Как программист, я готов помочь с техническими аспектами \"" ++ topic ++ "\". " ++
        (if contextSummary = "" then "" else "Учитывая контекст: " ++ contextSummary) ++
        " Могу предложить решения на уровне кода и архитектуры."
    else if agent.role = "writer" then
      "Как писатель, я помогу структурировать информацию по теме \"" ++ topic ++ "\". " ++
        (if contextSummary = "" then "" else "Исходя из предыдущего обсуждения: " ++ contextSummary) ++
        " Давайте создадим четкий и понятный контент."
    else if agent.role = "analyst" then
      "Как аналитик, я проанализирую тему \"" ++ topic ++ "\". " ++
        (if contextSummary = "" then "" else "На основе контекста: " ++ contextSummary) ++
        " Предложу структурированный анализ и выводы."
    else
      "Как AI ассистент, я готов помочь с темой \"" ++ topic ++ "\". " ++
        (if contextSummary = "" then "" else "Учитывая предыдущий контекст: " ++ contextSummary) ++
        " Что именно вас интересует?"
  if turn > 0 then
    response ++ " Это мой " ++ toString (turn + 1) ++ "-й ход в нашем обсуждении."
  else response

structure StartResponse where
  first_message : String
  next_agent : Option String
  turn : Nat
deriving DecidableEq, Repr

structure ContinueResponse where
  agent_message : String
  next_agent : Option String
  turn : Nat
  should_continue : Bool
deriving DecidableEq, Repr

structure EndResponse where
  summary : String
  total_turns : Nat
  total_messages : Nat
deriving DecidableEq, Repr

/-- `startMultiAgentConversation`.  `db` is the `agents` table as a lookup by
id; the `.in('id', agentIds)` fetch is modelled in request order, and its
`agents.length !== agentIds.length` completeness check as the `mapM`
failing when any id is missing.  Every early return leaves the world
untouched.  The `chats.chat_type` update is outside the modelled state. -/
def startMultiAgentConversation (db : String → Option Agent) (w : World)
    (chatId : String) (agentIds : List String) (topic : String)
    (maxTurns : Nat) : World × Except EngineError StartResponse :=
  if chatId = "" ∨ agentIds.length < 2 then
    (w, .error .invalidInput)
  else
    match agentIds.mapM db with
    | none => (w, .error .fetchFailed)
    | some agents =>
      match agents with
      | [] => (w, .error .fetchFailed)  -- unreachable: agents.length = agentIds.length ≥ 2
      | firstAgent :: _ =>
        let initialState : ConvState :=
          { currentTurn := 0, maxTurns := maxTurns, agents := agentIds,
            topic := topic, status := .active, messages := [] }
        let firstMessage := generateAgentMessage firstAgent topic [] 0
        let msg : ChatMessage :=
          { sender := firstAgent.name, content := firstMessage,
            role := "assistant", agent_id := some firstAgent.id,
            intent := "agent_conversation" }
        ({ conversation := some initialState,
           chatMessages := w.chatMessages ++ [msg] },
         .ok { first_message := firstMessage,
               next_agent := (agents[1]?).map Agent.id,
               turn := 1 })

/-- `continueConversation` of the edge function.  Note the state update
increments `currentTurn` and appends the turn message but never touches
`status`. -/
def continueConversation (db : String → Option Agent) (w : World) :
    World × Except EngineError ContinueResponse :=
  match w.conversation with
  | none => (w, .error .notFound)
  | some state =>
    if state.currentTurn ≥ state.maxTurns ∨ state.status ≠ CStatus.active then
      (w, .error .notActive)
    else
      let nextAgentIndex := state.currentTurn % state.agents.length
      match (state.agents[nextAgentIndex]?).bind db with
      | none => (w, .error .notFound)
      | some agent =>
        -- messages fetched with `order created_at desc, limit 5`: newest first
        let recentMessages := (w.chatMessages.reverse.take 5).map ChatMessage.content
        let agentMessage :=
          generateAgentMessage agent state.topic recentMessages state.currentTurn
        let msg : ChatMessage :=
          { sender := agent.name, content := agentMessage, role := "assistant",
            agent_id := some agent.id, intent := "agent_conversation" }
        let updatedState : ConvState :=
          { state with
              currentTurn := state.currentTurn + 1
              messages := state.messages ++
                [{ agentId := agent.id, agentName := agent.name,
                   content := agentMessage }] }
        let shouldContinue := updatedState.currentTurn < updatedState.maxTurns
        let nextAgent :=
          if shouldContinue then
            state.agents[updatedState.currentTurn % state.agents.length]?
          else none
        ({ conversation := some updatedState,
           chatMessages := w.chatMessages ++ [msg] },
         .ok { agent_message := agentMessage, next_agent := nextAgent,
               turn := updatedState.currentTurn,
               should_continue := shouldContinue })

/-- `endConversation` of the edge function: force `status := completed`,
append the summary message, report totals from the state as read. -/
def endConversation (w : World) : World × Except EngineError EndResponse :=
  match w.conversation with
  | none => (w, .error .notFound)
  | some state =>
    let finalState : ConvState := { state with status := .completed }
    let summary := "Разговор агентов завершен. Обсуждено " ++
      toString state.messages.length ++ " сообщений по теме \"" ++
      state.topic ++ "\"."
    let msg : ChatMessage :=
      { sender := "System", content := summary, role := "assistant",
        agent_id := none, intent := "conversation_summary" }
    ({ conversation := some finalState,
       chatMessages := w.chatMessages ++ [msg] },
     .ok { summary := summary, total_turns := state.currentTurn,
           total_messages := state.messages.length })

/-! ## The client-hook variant of the engine (`useMultiAgentChat`) -/

namespace Hook

inductive HStatus | active | paused | completed | cancelled
deriving DecidableEq, Repr

structure HookMsg where
  agentId : String
  content : String
deriving DecidableEq, Repr

structure HookConvState where
  currentTurn : Nat
  maxTurns : Nat
  participants : List String
  topic : String
  messages : List HookMsg
  status : HStatus
deriving DecidableEq, Repr

/-- One `agent_conversations` row as the hook sees it: the JSON
`conversation_state` plus the row's own `status` column. -/
structure AgentConversationRow where
  chat_id : String
  agent_ids : List String
  conversation_state : HookConvState
  status : HStatus
deriving DecidableEq, Repr

/-- `startAgentConversation` of `useMultiAgentChat` (validation:
`!user || !chatId || agentIds.length === 0`; the signed-in user is assumed). -/
def startAgentConversation (chatId : String) (agentIds : List String)
    (topic : String) (maxTurns : Nat) : Except EngineError AgentConversationRow :=
  if chatId = "" ∨ agentIds.length = 0 then
    .error .invalidInput
  else
    .ok { chat_id := chatId, agent_ids := agentIds,
          conversation_state :=
            { currentTurn := 0, maxTurns := maxTurns, participants := agentIds,
              topic := topic, messages := [], status := .active },
          status := .active }

/-- `continueConversation` of `useMultiAgentChat`: no status guard; the new
status is recomputed from the turn counter and written to both the JSON
state and the row's status column. -/
def continueConversation (row : AgentConversationRow) (agentId message : String) :
    AgentConversationRow :=
  let currentState := row.conversation_state
  let updatedState : HookConvState :=
    { currentState with
        currentTurn := currentState.currentTurn + 1
        messages := currentState.messages ++ [{ agentId := agentId, content := message }]
        status :=
          if currentState.currentTurn + 1 ≥ currentState.maxTurns then .completed
          else .active }
  { row with conversation_state := updatedState, status := updatedState.status }

/-- `endConversation` of `useMultiAgentChat`: updates only the row's status
column (the JSON `conversation_state` is left as is). -/
def endConversation (row : AgentConversationRow) : AgentConversationRow :=
  { row with status := .completed }

end Hook

/-! ## FeedbackImprovementEngine (`useSelfImprovingAgents`) -/

inductive FType | correction | improvement | praise | suggestion
deriving DecidableEq, Repr

structure FeedbackRec where
  id : String
  agent_id : String
  feedback_type : FType
  user_feedback : String
  /-- `confidence_score ∈ [0,1]`, in hundredths. -/
  confidence_score : Nat
deriving DecidableEq, Repr

structure SIAgent where
  id : String
  system_prompt : String
  performance_metrics : String
deriving DecidableEq, Repr

structure PromptImprovementLog where
  agent_id : String
  old_prompt : String
  new_prompt : String
  improvement_reason : String
  feedback_ids : List String
  performance_before : String
deriving DecidableEq, Repr

/-- The rows the engine reads and writes for one agent: the `agent_feedback`
rows (newest first, as the `order created_at desc` queries return them) and
the `prompt_improvement_logs` rows (newest first). -/
structure FbWorld where
  agent : SIAgent
  feedbackLog : List FeedbackRec
  improvementLogs : List PromptImprovementLog
deriving DecidableEq, Repr

def accuracyKeywords : List String := ["неточно", "неправильно", "ошибка", "incorrect", "wrong"]
def clarityKeywords : List String := ["непонятно", "сложно", "unclear", "confusing"]
def completenessKeywords : List String := ["неполно", "не хватает", "incomplete", "missing"]
def relevanceKeywords : List String := ["не по теме", "irrelevant", "off-topic"]
def toneKeywords : List String := ["грубо", "невежливо", "rude", "impolite"]

def issuePatterns : List (String × List String) :=
  [("accuracy", accuracyKeywords), ("clarity", clarityKeywords),
   ("completeness", completenessKeywords), ("relevance", relevanceKeywords),
   ("tone", toneKeywords)]

/-- `identifyCommonIssues`: an issue is common when ≥ 2 feedback texts
mention one of its keywords. -/
def identifyCommonIssues (feedback : List FeedbackRec) : List String :=
  let texts := feedback.map (fun f => lower f.user_feedback)
  issuePatterns.foldl
    (fun issues p =>
      let matchCount := (texts.filter (fun t => anyKw p.2 t)).length
      if matchCount ≥ 2 then issues ++ [p.1] else issues)
    []

structure FeedbackAnalysis where
  shouldImprove : Bool
  negativeCount : Nat
  totalFeedback : Nat
  confidenceSum : Nat
  commonIssues : List String
deriving DecidableEq, Repr

/-- `analyzeAggregatedFeedback`.  The source's float ratios are kept as the
raw counts; its comparisons `negative/total > 0.3` and
`averageConfidence < 0.7` are the exact cross-multiplied tests below
(confidence scores are in hundredths). -/
def analyzeAggregatedFeedback (feedback : List FeedbackRec) : FeedbackAnalysis :=
  let total := feedback.length
  let negative := (feedback.filter
    (fun f => f.feedback_type == .correction || f.feedback_type == .improvement)).length
  let confSum := feedback.foldl (fun s f => s + f.confidence_score) 0
  let commonIssues := identifyCommonIssues feedback
  { shouldImprove :=
      decide (10 * negative > 3 * total) || decide (confSum < 70 * total) ||
        decide (commonIssues.length > 0),
    negativeCount := negative, totalFeedback := total,
    confidenceSum := confSum, commonIssues := commonIssues }

def accuracySection : String :=
  "\n\n**Точность и Проверка Фактов:**\n- Всегда проверяй факты перед ответом\n- При неуверенности, указывай на ограничения знаний\n- Ссылайся на источники когда возможно"

def claritySection : String :=
  "\n\n**Ясность Коммуникации:**\n- Используй простой и понятный язык\n- Структурируй ответы с заголовками и списками\n- Избегай излишней технической терминологии без объяснений"

def completenessSection : String :=
  "\n\n**Полнота Ответов:**\n- Обеспечивай comprehensive coverage темы\n- Предвосхищай follow-up вопросы\n- Предлагай дополнительные ресурсы когда уместно"

def relevanceSection : String :=
  "\n\n**Релевантность:**\n- Внимательно анализируй контекст вопроса\n- Фокусируйся на specific needs пользователя\n- Избегай отклонений от основной темы"

def toneSection : String :=
  "\n\n**Тон и Стиль:**\n- Поддерживай дружелюбный и профессиональный тон\n- Проявляй эмпатию к проблемам пользователя\n- Избегай категоричных утверждений"

def correctionsHeader : String :=
  "\n\n**Специальные Инструкции на основе пользовательских корректировок:**\n"

/-- `generateImprovedPrompt`: the old prompt with one appended section per
detected common issue plus an enumerated section of the `correction`-type
feedback texts; paired with the joined reason string. -/
def generateImprovedPrompt (agent : SIAgent) (feedback : List FeedbackRec)
    (analysis : FeedbackAnalysis) : String × String :=
  let p0 := agent.system_prompt
  let r0 : List String := []
  let p1 := if analysis.commonIssues.contains "accuracy" then p0 ++ accuracySection else p0
  let r1 := if analysis.commonIssues.contains "accuracy" then r0 ++ ["Улучшена точность ответов"] else r0
  let p2 := if analysis.commonIssues.contains "clarity" then p1 ++ claritySection else p1
  let r2 := if analysis.commonIssues.contains "clarity" then r1 ++ ["Улучшена ясность изложения"] else r1
  let p3 := if analysis.commonIssues.contains "completeness" then p2 ++ completenessSection else p2
  let r3 := if analysis.commonIssues.contains "completeness" then r2 ++ ["Улучшена полнота ответов"] else r2
  let p4 := if analysis.commonIssues.contains "relevance" then p3 ++ relevanceSection else p3
  let r4 := if analysis.commonIssues.contains "relevance" then r3 ++ ["Улучшена релевантность"] else r3
  let p5 := if analysis.commonIssues.contains "tone" then p4 ++ toneSection else p4
  let r5 := if analysis.commonIssues.contains "tone" then r4 ++ ["Улучшен тон общения"] else r4
  let corrections := feedback.filter (fun f => f.feedback_type == .correction)
  let p6 :=
    if corrections.length > 0 then
      p5 ++ (correctionsHeader ++
        String.join (corrections.enum.map
          (fun ic => toString (ic.1 + 1) ++ ". " ++ ic.2.user_feedback ++ "\n")))
    else p5
  let r6 :=
    if corrections.length > 0 then r5 ++ ["Добавлены специальные инструкции"] else r5
  (p6, String.intercalate ", " r6)

/-- `suggestPromptImprovement`: write the immutable improvement-log entry,
then update the agent's live prompt. -/
def suggestPromptImprovement (w : FbWorld) (feedback : List FeedbackRec)
    (analysis : FeedbackAnalysis) : FbWorld :=
  let improved := generateImprovedPrompt w.agent feedback analysis
  let log : PromptImprovementLog :=
    { agent_id := w.agent.id, old_prompt := w.agent.system_prompt,
      new_prompt := improved.1, improvement_reason := improved.2,
      feedback_ids := feedback.map FeedbackRec.id,
      performance_before := w.agent.performance_metrics }
  { w with
      improvementLogs := log :: w.improvementLogs
      agent := { w.agent with system_prompt := improved.1 } }

/-- `analyzeFeedbackForImprovement`: most recent 10 feedback rows; no-op
below 3; improve when the analysis says so. -/
def analyzeFeedbackForImprovement (w : FbWorld) : FbWorld :=
  let recentFeedback := w.feedbackLog.take 10
  if recentFeedback.length < 3 then w
  else
    let feedbackAnalysis := analyzeAggregatedFeedback recentFeedback
    if feedbackAnalysis.shouldImprove then
      suggestPromptImprovement w recentFeedback feedbackAnalysis
    else w

/-- `collectFeedback`: insert the feedback row, then run the improvement
analysis as a side effect. -/
def collectFeedback (w : FbWorld) (f : FeedbackRec) : FbWorld :=
  analyzeFeedbackForImprovement { w with feedbackLog := f :: w.feedbackLog }

/-! ## Theorems for the claims -/

/-- C5: for every message containing an urgent-pattern keyword
(case-insensitive substring containment, as the source matches it), the
`classifyIntent` of `useAdvancedIntentClassification` returns priority
`urgent` and `requiresEscalation = true`, whatever the agent tables contain
and whichever other rule families also match: the urgent rule is evaluated
first and wins. -/
theorem classifyIntent_urgent_wins (supportAgents researchers : List String)
    (message : String) (h : anyKw urgentPatterns (lower message) = true) :
    (classifyIntent supportAgents researchers message).priority = Priority.urgent ∧
    (classifyIntent supportAgents researchers message).requiresEscalation = true := by
  simp [classifyIntent, h]

/-- Witness for C5: a concrete message that contains the urgent keyword
"срочно" together with keywords of the technical, document and research
families. -/
theorem classifyIntent_urgent_wins_witness :
    anyKw urgentPatterns (lower "Срочно! Ошибка 500 в базе данных, нужен анализ документа") = true ∧
    (classifyIntent ["s1"] ["r1"] "Срочно! Ошибка 500 в базе данных, нужен анализ документа").priority = Priority.urgent ∧
    (classifyIntent ["s1"] ["r1"] "Срочно! Ошибка 500 в базе данных, нужен анализ документа").requiresEscalation = true :=
  ⟨by decide,
   classifyIntent_urgent_wins ["s1"] ["r1"]
     "Срочно! Ошибка 500 в базе данных, нужен анализ документа" (by decide)⟩

/-- C10: implicit output invariant of `classifySupportTicket`: the returned
priority is never `high` (the final override rewrites `high` to `urgent`),
and `requiresHumanEscalation` is `true` exactly when the returned priority
is `urgent`. -/
theorem classifySupportTicket_invariant (message : String) :
    (classifySupportTicket message).priority ≠ Priority.high ∧
    ((classifySupportTicket message).requiresHumanEscalation = true ↔
      (classifySupportTicket message).priority = Priority.urgent) := by
  unfold classifySupportTicket
  cases h1 : anyKw ticketTechnicalWords (lower message) <;>
    cases h2 : anyKw ticketComplexWords (lower message) <;>
    cases h3 : anyKw ticketModerateWords (lower message) <;>
    cases h4 : anyKw ticketBugWords (lower message) <;>
    cases h5 : anyKw ticketFeatureWords (lower message) <;>
    cases h6 : anyKw ticketBillingWords (lower message) <;>
    cases h7 : anyKw ticketCriticalWords (lower message) <;>
    simp [h1, h2, h3, h4, h5, h6, h7]

/-- C3 counterexample: on the message of the claim, `classifySupportTicket`
does NOT return `priority = urgent` with `requiresHumanEscalation = true`:
none of the escalation keywords (`critical`, `критический`, `urgent`,
`срочно`) occurs in "критическая ошибка, система не работает" (the
adjectival form "критическая" does not contain "критический"), and the
technical branch resolves to the simple tier. -/
theorem classifySupportTicket_critical_counterexample :
    ¬ ((classifySupportTicket "критическая ошибка, система не работает").priority = Priority.urgent ∧
       (classifySupportTicket "критическая ошибка, система не работает").requiresHumanEscalation = true ∧
       (classifySupportTicket "критическая ошибка, система не работает").category = TicketCategory.technical) := by
  decide

/-- C3 amended: `classifySupportTicket "критическая ошибка, система не
работает"` returns category `technical` with priority `low`, complexity
`simple`, 15 minutes estimated resolution and no human escalation. -/
theorem classifySupportTicket_critical_eval :
    classifySupportTicket "критическая ошибка, система не работает" =
      { category := .technical, priority := .low, complexity := .simple,
        estimatedResolutionTime := 15, requiresHumanEscalation := false } := by
  decide

/-- `k` successive `continueConversation` calls, keeping the world of each
step (failed calls leave the world unchanged). -/
def iterateContinue (db : String → Option Agent) : Nat → World → World
  | 0, w => w
  | n + 1, w => iterateContinue db n (continueConversation db w).1

/-- An `agents` table holding three agents A, B, C. -/
def dbABC : String → Option Agent := fun id =>
  if id = "A" then some ⟨"A", "Агент A", "промпт A", "researcher"⟩
  else if id = "B" then some ⟨"B", "Агент B", "промпт B", "coder"⟩
  else if id = "C" then some ⟨"C", "Агент C", "промпт C", "writer"⟩
  else none

/-- Starting a three-agent conversation with the default `maxTurns = 5`. -/
def startABC : World × Except EngineError StartResponse :=
  startMultiAgentConversation dbABC emptyWorld "chat1" ["A", "B", "C"] "архитектура" 5

/-- The world после the start call and five `continue` calls (turns 0..5 of
the claim's scenario). -/
def worldABC : World := iterateContinue dbABC 5 startABC.1

def isOkE : Except ε α → Bool
  | .ok _ => true
  | .error _ => false

/-- `true` when the k-th continue call of the three-agent run succeeds. -/
def stepOkABC (k : Nat) : Bool :=
  isOkE (continueConversation dbABC (iterateContinue dbABC k startABC.1)).2

/-- C1: evaluating the engine on `agentIds = [A, B, C]`, `maxTurns = 5`: the
start call and all five continue calls succeed, yet the speaker sequence
over turns 0..5 is A, A, B, C, A, B — not the round-robin A, B, C, A, B, C —
even though the start response itself promises `next_agent = B`: the start
handler posts A's opening message but stores `currentTurn = 0`, so the first
continue call picks `agents[0 % 3] = A` again. -/
theorem roundRobin_speaker_run :
    isOkE startABC.2 = true ∧
    ([0, 1, 2, 3, 4].all stepOkABC) = true ∧
    worldABC.chatMessages.map ChatMessage.agent_id =
      [some "A", some "A", some "B", some "C", some "A", some "B"] ∧
    worldABC.chatMessages.map ChatMessage.agent_id ≠
      [some "A", some "B", some "C", some "A", some "B", some "C"] ∧
    (startABC.2.toOption).map StartResponse.next_agent = some (some "B") := by
  decide

/-- An `agents` table holding the two agents A and B. -/
def dbAB : String → Option Agent := fun id =>
  if id = "A" then some ⟨"A", "Агент A", "промпт A", "researcher"⟩
  else if id = "B" then some ⟨"B", "Агент B", "промпт B", "coder"⟩
  else none

/-- Starting a two-agent conversation with `maxTurns = 5`. -/
def startAB : World × Except EngineError StartResponse :=
  startMultiAgentConversation dbAB emptyWorld "chat2" ["A", "B"] "тема" 5

/-- The world after the start call and five `continue` calls. -/
def worldAB : World := iterateContinue dbAB 5 startAB.1

/-- `true` when the k-th continue call of the two-agent run succeeds. -/
def stepOkAB (k : Nat) : Bool :=
  isOkE (continueConversation dbAB (iterateContinue dbAB k startAB.1)).2

/-- C2 counterexample: in the two-agent, `maxTurns = 5` scenario the start
call and all five continue calls succeed and exhaust the turn budget, yet
the stored status is still `active`, not `completed`: the edge function's
`continueConversation` never writes `status`. -/
theorem continueTurn_completed_counterexample :
    isOkE startAB.2 = true ∧
    ([0, 1, 2, 3, 4].all stepOkAB) = true ∧
    worldAB.conversation.map ConvState.currentTurn = some 5 ∧
    worldAB.conversation.map ConvState.status = some CStatus.active ∧
    worldAB.conversation.map ConvState.status ≠ some CStatus.completed := by
  decide

/-- C2 amended: `startMultiAgentConversation` with fewer than 2 agent ids
always fails with `InvalidInput` and leaves the world untouched; in the
two-agent `maxTurns = 5` run, the five successful continue calls bring
`currentTurn` to `maxTurns = 5` while the status remains `active` (only
`endConversation` writes `completed`), and a sixth continue call fails with
`NotActive` leaving the world unchanged. -/
theorem start_invalid_and_turn_budget :
    (∀ (db : String → Option Agent) (w : World) (chatId : String)
        (agentIds : List String) (topic : String) (maxTurns : Nat),
        agentIds.length < 2 →
        startMultiAgentConversation db w chatId agentIds topic maxTurns =
          (w, .error .invalidInput)) ∧
    ([0, 1, 2, 3, 4].all stepOkAB) = true ∧
    worldAB.conversation.map ConvState.currentTurn = some 5 ∧
    worldAB.conversation.map ConvState.status = some CStatus.active ∧
    (continueConversation dbAB worldAB).2 = .error .notActive ∧
    (continueConversation dbAB worldAB).1 = worldAB := by
  refine ⟨?_, by decide, by decide, by decide, rfl, rfl⟩
  intro db w chatId agentIds topic maxTurns h
  unfold startMultiAgentConversation
  rw [if_pos (Or.inr h)]

/-- Witness for C2: the invalid-input branch of the amended theorem at a
concrete one-agent input. -/
theorem start_invalid_and_turn_budget_witness :
    (["A"].length < 2) ∧
    startMultiAgentConversation dbAB emptyWorld "chat2" ["A"] "тема" 5 =
      (emptyWorld, .error .invalidInput) :=
  ⟨by decide,
   start_invalid_and_turn_budget.1 dbAB emptyWorld "chat2" ["A"] "тема" 5 (by decide)⟩

/-- The hook-engine row created by `startAgentConversation "chat1" ["A","B"]
"тема" 5`. -/
def hookRowAB : Hook.AgentConversationRow :=
  { chat_id := "chat1", agent_ids := ["A", "B"],
    conversation_state :=
      { currentTurn := 0, maxTurns := 5, participants := ["A", "B"],
        topic := "тема", messages := [], status := .active },
    status := .active }

/-- C7 counterexample: in the client hook engine, a reachable operation
sequence moves a conversation out of `completed`: `startAgentConversation`
creates the row `active`, `endConversation` sets its status column to
`completed`, and a subsequent `continueConversation` — which has no status
guard and recomputes the status from the turn counter — sets it back to
`active`. -/
theorem status_leaves_completed_counterexample :
    Hook.startAgentConversation "chat1" ["A", "B"] "тема" 5 = .ok hookRowAB ∧
    (Hook.endConversation hookRowAB).status = Hook.HStatus.completed ∧
    (Hook.continueConversation (Hook.endConversation hookRowAB) "A" "привет").status =
      Hook.HStatus.active ∧
    Hook.HStatus.active ≠ Hook.HStatus.completed := by
  decide

/-- C7 amended: the forward-only property holds for the edge-function
engine, where `completed` is absorbing: on a completed conversation,
`continueConversation` fails with `NotActive` leaving the world unchanged,
and `endConversation` keeps the status `completed`.  (The client hook
engine violates the invariant, see the counterexample.) -/
theorem completed_is_absorbing (db : String → Option Agent) (w : World)
    (s : ConvState) (hconv : w.conversation = some s)
    (hst : s.status = CStatus.completed) :
    continueConversation db w = (w, .error .notActive) ∧
    (endConversation w).1.conversation.map ConvState.status =
      some CStatus.completed := by
  constructor
  · unfold continueConversation
    simp only [hconv]
    rw [if_pos (Or.inr (by simp [hst]))]
  · unfold endConversation
    simp only [hconv]
    rfl

/-- A finished conversation state and world for the C7 witness. -/
def doneStateC7 : ConvState :=
  { currentTurn := 2, maxTurns := 5, agents := ["A", "B"], topic := "тема",
    status := .completed,
    messages := [{ agentId := "A", agentName := "Агент A", content := "реплика" }] }

def doneWorldC7 : World := { conversation := some doneStateC7, chatMessages := [] }

/-- Witness for C7: the absorbing property applied to a concrete completed
conversation. -/
theorem completed_is_absorbing_witness :
    (doneWorldC7.conversation = some doneStateC7 ∧
     doneStateC7.status = CStatus.completed) ∧
    (continueConversation dbAB doneWorldC7 = (doneWorldC7, .error .notActive) ∧
     (endConversation doneWorldC7).1.conversation.map ConvState.status =
       some CStatus.completed) :=
  ⟨⟨rfl, rfl⟩, completed_is_absorbing dbAB doneWorldC7 doneStateC7 rfl rfl⟩

/-- C8: `endConversation` is idempotent: whenever the conversation exists,
the second call returns exactly the same response as the first (in
particular the same `total_turns` and `total_messages`), it does not fail,
and it leaves the conversation state exactly as the first call left it. -/
theorem endConversation_idempotent (w : World) (s : ConvState)
    (h : w.conversation = some s) :
    (endConversation (endConversation w).1).2 = (endConversation w).2 ∧
    isOkE (endConversation (endConversation w).1).2 = true ∧
    (endConversation (endConversation w).1).1.conversation =
      (endConversation w).1.conversation := by
  simp [endConversation, h, isOkE]

/-- A running conversation state and world for the C8 witness. -/
def activeStateC8 : ConvState :=
  { currentTurn := 3, maxTurns := 5, agents := ["A", "B"], topic := "тема",
    status := .active,
    messages := [{ agentId := "A", agentName := "Агент A", content := "раз" },
                 { agentId := "B", agentName := "Агент B", content := "два" },
                 { agentId := "A", agentName := "Агент A", content := "три" }] }

def activeWorldC8 : World := { conversation := some activeStateC8, chatMessages := [] }

/-- Witness for C8: idempotence at a concrete conversation. -/
theorem endConversation_idempotent_witness :
    (activeWorldC8.conversation = some activeStateC8) ∧
    ((endConversation (endConversation activeWorldC8).1).2 =
        (endConversation activeWorldC8).2 ∧
     isOkE (endConversation (endConversation activeWorldC8).1).2 = true ∧
     (endConversation (endConversation activeWorldC8).1).1.conversation =
       (endConversation activeWorldC8).1.conversation) :=
  ⟨rfl, endConversation_idempotent activeWorldC8 activeStateC8 rfl⟩

/-- A `rag` context with no active documents, switched at time 0. -/
def ragCtxEmpty : ConversationContext :=
  { chatId := "chat1", currentContext := .rag, activeDocuments := [],
    relevantHistory := [], contextScore := 85, lastSwitchTime := 0 }

/-- C6 counterexample: with `currentContext = rag` and
`activeDocuments = []`, the message "помните" contains no document keyword
of either list, yet `analyzeContextSwitch` reports a switch to `history`,
not to `general` (the history family fires first). -/
theorem rag_degradation_counterexample :
    anyKw documentKeywords (lower "помните") = false ∧
    anyKw ragDocKeywords (lower "помните") = false ∧
    (analyzeContextSwitch [] [] [] [] 600000 "помните" (some ragCtxEmpty)).shouldSwitch = true ∧
    (analyzeContextSwitch [] [] [] [] 600000 "помните" (some ragCtxEmpty)).newContext ≠ Ctx.general := by
  decide

/-- C6 amended: with `currentContext = rag` and `activeDocuments = []`, a
message matching none of the four switch-trigger keyword families and none
of the rag-effectiveness document keywords makes `analyzeContextSwitch`
report `shouldSwitch = true` with `newContext = general`, at any time. -/
theorem rag_degradation (sup res docs hist : List String) (now : Nat)
    (message : String) (ctx : ConversationContext)
    (h1 : anyKw documentKeywords (lower message) = false)
    (h2 : anyKw historyKeywords (lower message) = false)
    (h3 : anyKw agentTaskKeywords (lower message) = false)
    (h4 : anyKw technicalKeywords (lower message) = false)
    (h5 : anyKw ragDocKeywords (lower message) = false)
    (hc : ctx.currentContext = Ctx.rag)
    (hd : ctx.activeDocuments = []) :
    (analyzeContextSwitch sup res docs hist now message (some ctx)).shouldSwitch = true ∧
    (analyzeContextSwitch sup res docs hist now message (some ctx)).newContext = Ctx.general := by
  unfold analyzeContextSwitch analyzeCurrentContextEffectiveness
  simp [h1, h2, h3, h4, h5, hc, hd]

/-- Witness for C6: the amended degradation at the concrete no-keyword
message "привет". -/
theorem rag_degradation_witness :
    (anyKw documentKeywords (lower "привет") = false ∧
     anyKw historyKeywords (lower "привет") = false ∧
     anyKw agentTaskKeywords (lower "привет") = false ∧
     anyKw technicalKeywords (lower "привет") = false ∧
     anyKw ragDocKeywords (lower "привет") = false ∧
     ragCtxEmpty.currentContext = Ctx.rag ∧ ragCtxEmpty.activeDocuments = []) ∧
    ((analyzeContextSwitch [] [] [] [] 600000 "привет" (some ragCtxEmpty)).shouldSwitch = true ∧
     (analyzeContextSwitch [] [] [] [] 600000 "привет" (some ragCtxEmpty)).newContext = Ctx.general) :=
  ⟨by decide,
   rag_degradation [] [] [] [] 600000 "привет" ragCtxEmpty
     (by decide) (by decide) (by decide) (by decide) (by decide) rfl rfl⟩

/-- A `rag` context with no active documents whose switch happened at time
0; the second call below happens one minute later. -/
def ragCtxRecent : ConversationContext :=
  { chatId := "chat7", currentContext := .rag, activeDocuments := [],
    relevantHistory := [], contextScore := 85, lastSwitchTime := 0 }

/-- C4 counterexample: one minute after the context switch (< 5 minutes),
a call with the trigger-free message "привет" still reports
`shouldSwitch = true`: the degradation branch assigns the score 0.4, wiping
out the +0.2 recent-switch weight, so two such calls inside 5 minutes both
switch. -/
theorem antiThrash_counterexample :
    anyKw documentKeywords (lower "привет") = false ∧
    anyKw historyKeywords (lower "привет") = false ∧
    anyKw agentTaskKeywords (lower "привет") = false ∧
    anyKw technicalKeywords (lower "привет") = false ∧
    60000 - ragCtxRecent.lastSwitchTime < 300000 ∧
    (analyzeContextSwitch [] [] [] [] 60000 "привет" (some ragCtxRecent)).shouldSwitch = true := by
  decide

/-- C4 amended: the +0.2 recent-switch weight never affects the outcome.
For a message matching no strong-trigger family, a call at ANY time — in
particular within 5 minutes of the last switch — reports
`shouldSwitch = true` exactly when the current context's degradation
condition holds (`rag` with no active documents and no rag document
keywords in the message, or `history` with no history-check keywords); so
the suppression claimed for the 5-minute window does not exist. -/
theorem antiThrash_weight_ineffective (sup res docs hist : List String)
    (now : Nat) (message : String) (ctx : ConversationContext)
    (h1 : anyKw documentKeywords (lower message) = false)
    (h2 : anyKw historyKeywords (lower message) = false)
    (h3 : anyKw agentTaskKeywords (lower message) = false)
    (h4 : anyKw technicalKeywords (lower message) = false) :
    (analyzeContextSwitch sup res docs hist now message (some ctx)).shouldSwitch = true ↔
      ((ctx.currentContext = Ctx.rag ∧ anyKw ragDocKeywords (lower message) = false ∧
          ctx.activeDocuments = []) ∨
       (ctx.currentContext = Ctx.history ∧
          anyKw histCheckKeywords (lower message) = false)) := by
  unfold analyzeContextSwitch analyzeCurrentContextEffectiveness
  rcases hcc : ctx.currentContext <;>
    rcases h5 : anyKw ragDocKeywords (lower message) <;>
    rcases h6 : anyKw histCheckKeywords (lower message) <;>
    rcases hd : ctx.activeDocuments with _ | ⟨d, ds⟩ <;>
    by_cases ht : now - ctx.lastSwitchTime < 300000 <;>
    simp [h1, h2, h3, h4, h5, h6, hcc, hd, ht]

/-- Witness for C4: the amended iff at the concrete recently-switched `rag`
context and the trigger-free message "привет". -/
theorem antiThrash_weight_ineffective_witness :
    (anyKw documentKeywords (lower "привет") = false ∧
     anyKw historyKeywords (lower "привет") = false ∧
     anyKw agentTaskKeywords (lower "привет") = false ∧
     anyKw technicalKeywords (lower "привет") = false) ∧
    ((analyzeContextSwitch [] [] [] [] 60000 "привет" (some ragCtxRecent)).shouldSwitch = true ↔
      ((ragCtxRecent.currentContext = Ctx.rag ∧
          anyKw ragDocKeywords (lower "привет") = false ∧
          ragCtxRecent.activeDocuments = []) ∨
       (ragCtxRecent.currentContext = Ctx.history ∧
          anyKw histCheckKeywords (lower "привет") = false))) :=
  ⟨by decide,
   antiThrash_weight_ineffective [] [] [] [] 60000 "привет" ragCtxRecent
     (by decide) (by decide) (by decide) (by decide)⟩

/-- Appending a conditional section keeps `p` a leading segment of the
prompt. -/
theorem exists_suffix_ite (c : Prop) [Decidable c] (p q s : String)
    (h : ∃ t, q = p ++ t) : ∃ t, (if c then q ++ s else q) = p ++ t := by
  obtain ⟨t, ht⟩ := h
  split
  · exact ⟨t ++ s, by rw [ht, String.append_assoc]⟩
  · exact ⟨t, ht⟩

/-- `generateImprovedPrompt` only ever appends: the old prompt is a leading
segment of the new one. -/
theorem generateImprovedPrompt_extends (agent : SIAgent)
    (feedback : List FeedbackRec) (analysis : FeedbackAnalysis) :
    ∃ t, (generateImprovedPrompt agent feedback analysis).1 =
      agent.system_prompt ++ t := by
  unfold generateImprovedPrompt
  dsimp only
  apply exists_suffix_ite
  apply exists_suffix_ite
  apply exists_suffix_ite
  apply exists_suffix_ite
  apply exists_suffix_ite
  apply exists_suffix_ite
  exact ⟨"", (String.append_empty _).symm⟩

/-- C9: from an empty feedback history, recording three `correction`-type
feedback entries in a row for one agent, each of whose texts matches an
accuracy-issue keyword, produces exactly one improvement-log entry; its
`old_prompt` is the agent's prompt, its `new_prompt` extends that prompt on
the right (append-only growth), its `feedback_ids` list the ids of all
three matched feedback records, and the agent's live prompt is updated to
the new prompt. -/
theorem feedback_improvement_fires (a : SIAgent) (f1 f2 f3 : FeedbackRec)
    (h1 : f1.feedback_type = FType.correction)
    (h2 : f2.feedback_type = FType.correction)
    (h3 : f3.feedback_type = FType.correction)
    (k1 : anyKw accuracyKeywords (lower f1.user_feedback) = true)
    (k2 : anyKw accuracyKeywords (lower f2.user_feedback) = true)
    (k3 : anyKw accuracyKeywords (lower f3.user_feedback) = true) :
    (collectFeedback (collectFeedback (collectFeedback
        ⟨a, [], []⟩ f1) f2) f3).improvementLogs.length = 1 ∧
    ∀ L ∈ (collectFeedback (collectFeedback (collectFeedback
        ⟨a, [], []⟩ f1) f2) f3).improvementLogs,
      L.old_prompt = a.system_prompt ∧
      (∃ t, L.new_prompt = a.system_prompt ++ t) ∧
      L.feedback_ids = [f3.id, f2.id, f1.id] ∧
      (collectFeedback (collectFeedback (collectFeedback
        ⟨a, [], []⟩ f1) f2) f3).agent.system_prompt = L.new_prompt := by
  have step12 : collectFeedback (collectFeedback ⟨a, [], []⟩ f1) f2 =
      ⟨a, [f2, f1], []⟩ := by
    simp [collectFeedback, analyzeFeedbackForImprovement]
  rw [step12]
  simp only [collectFeedback, analyzeFeedbackForImprovement,
    analyzeAggregatedFeedback, suggestPromptImprovement]
  simp [h1, h2, h3, generateImprovedPrompt_extends]

/-- The agent and the three accuracy-flagged correction feedback records of
the C9 witness scenario. -/
def agentW : SIAgent := ⟨"a1", "Вы - универсальный AI-ассистент.", "{}"⟩

def fbW1 : FeedbackRec := ⟨"f1", "a1", .correction, "неточно указана дата", 40⟩
def fbW2 : FeedbackRec := ⟨"f2", "a1", .correction, "неправильно посчитан итог", 30⟩
def fbW3 : FeedbackRec := ⟨"f3", "a1", .correction, "ошибка в формуле", 35⟩

/-- Witness for C9: the improvement scenario at three concrete correction
feedback records. -/
theorem feedback_improvement_fires_witness :
    (fbW1.feedback_type = FType.correction ∧
     fbW2.feedback_type = FType.correction ∧
     fbW3.feedback_type = FType.correction ∧
     anyKw accuracyKeywords (lower fbW1.user_feedback) = true ∧
     anyKw accuracyKeywords (lower fbW2.user_feedback) = true ∧
     anyKw accuracyKeywords (lower fbW3.user_feedback) = true) ∧
    ((collectFeedback (collectFeedback (collectFeedback
        ⟨agentW, [], []⟩ fbW1) fbW2) fbW3).improvementLogs.length = 1 ∧
     ∀ L ∈ (collectFeedback (collectFeedback (collectFeedback
        ⟨agentW, [], []⟩ fbW1) fbW2) fbW3).improvementLogs,
       L.old_prompt = agentW.system_prompt ∧
       (∃ t, L.new_prompt = agentW.system_prompt ++ t) ∧
       L.feedback_ids = [fbW3.id, fbW2.id, fbW1.id] ∧
       (collectFeedback (collectFeedback (collectFeedback
        ⟨agentW, [], []⟩ fbW1) fbW2) fbW3).agent.system_prompt = L.new_prompt) :=
  ⟨⟨rfl, rfl, rfl, by decide, by decide, by decide⟩,
   feedback_improvement_fires agentW fbW1 fbW2 fbW3 rfl rfl rfl
     (by decide) (by decide) (by decide)⟩

end UniChat
